import Mathlib

/-!
Shallow embedding of the vbel2026 grid interaction engine.

Sources embedded here:
- `src/src/utils/grid.ts` (`clampGrid`)
- `src/src/components/visual-block-grid.ts`: the file contains two
  revisions of the component; the first revision's handlers
  (`_handleGridMouseDown`, `_handleWindowMouseMove`, `_handleWindowMouseUp`)
  are embedded as `mouseDownStep`, `mouseMoveStep`, `mouseUpStep`, and the
  second revision's differing pieces (selection-aware hit pick, rigid-group
  move) as `primaryHitMoveV2` and `rigidMoveStep`.

Grid-unit geometry is over `Int` (the source stores integer grid units);
pixel coordinates are over `ℚ` (the source uses JS floats, exact on the
inputs considered here).  `Math.round` is `⌊q + 1/2⌋`, `Math.floor` is
`Int.floor`, matching JS semantics on rationals.
-/

/-- The `{x, y, w, h}` record consumed and produced by `clampGrid`. -/
structure GRect where
  x : Int
  y : Int
  w : Int
  h : Int
  deriving DecidableEq

/-- `clampGrid` from `src/src/utils/grid.ts` lines 9-16. -/
def clampGrid (rect : GRect) (cols : Int) : GRect :=
  let w := max 1 (min rect.w cols)
  let x := max 0 (min rect.x (cols - w))
  let y := max 0 rect.y
  let h := max 1 rect.h
  { x := x, y := y, w := w, h := h }

/-- A placed block: grid geometry plus identity, stacking order and content
reference (spec section 3 `Rect`; the handlers read `id`, `x`, `y`, `w`,
`h`, `z` and carry the remaining fields through object spreads). -/
structure Rect where
  id : String
  x : Int
  y : Int
  w : Int
  h : Int
  z : Int
  contentID : String
  deriving DecidableEq

/-- `{...orig, ...constrained}`: overwrite the geometry fields of a full
rect with a clamped `{x,y,w,h}` record, keeping `id`, `z`, `contentID`. -/
def Rect.withGeom (r : Rect) (g : GRect) : Rect :=
  { r with x := g.x, y := g.y, w := g.w, h := g.h }

/-- The geometry fields of a full rect, as fed to `clampGrid`. -/
def Rect.geom (r : Rect) : GRect :=
  { x := r.x, y := r.y, w := r.w, h := r.h }

/-- Grid geometry configuration (spec section 3 `GridConfig`; the fields the
embedded handlers read). -/
structure GridConfig where
  columns : Int
  stepX : ℚ
  stepY : ℚ
  padding : ℚ
  deriving DecidableEq

/-- The editor-state snapshot consumed by the engine (spec section 6):
`rects` in `Object.values` order, the current selection, the grid
configuration and the mode guard (`isDesign` models `mode === 'design'`). -/
structure Ctx where
  rects : List Rect
  selectedIds : List String
  gridConfig : GridConfig
  isDesign : Bool
  deriving DecidableEq

/-- `getGridCoords`: canvas pixel point to grid cell via
`Math.floor((p - padding) / step)`. -/
def getGridCoords (cfg : GridConfig) (x y : ℚ) : Int × Int :=
  (⌊(x - cfg.padding) / cfg.stepX⌋, ⌊(y - cfg.padding) / cfg.stepY⌋)

/-- JS `Math.round`: round half toward positive infinity. -/
def jsRound (q : ℚ) : Int := ⌊q + 1 / 2⌋

/-- Descending z-order comparison used by `sort((a, b) => (b.z||0) - (a.z||0))`. -/
def zGE (a b : Rect) : Prop := b.z ≤ a.z

instance : DecidableRel zGE := fun a b => Int.decLe b.z a.z

instance : IsTotal Rect zGE := ⟨fun a b => le_total b.z a.z⟩

instance : IsTrans Rect zGE := ⟨fun _ _ _ h1 h2 => le_trans h2 h1⟩

/-- Does the rect's `[x, x+w) × [y, y+h)` cell range contain cell `(gx, gy)`? -/
def cellHit (r : Rect) (gx gy : Int) : Bool :=
  decide (r.x ≤ gx ∧ gx < r.x + r.w ∧ r.y ≤ gy ∧ gy < r.y + r.h)

/-- The `hitRects` computation: filter rects containing the cell, sorted by
descending z (stable, like the JS engine sort). -/
def hitRectsAt (rects : List Rect) (gx gy : Int) : List Rect :=
  List.insertionSort zGE (rects.filter (fun r => cellHit r gx gy))

/-- First revision's body-hit pick: the topmost rect by z (`hitRects[0]`). -/
def primaryHitMoveV1 (rects : List Rect) (gx gy : Int) : Option String :=
  (hitRectsAt rects gx gy).head?.map (·.id)

/-- Second revision's body-hit pick (lines 685-700): an already-selected hit
is preferred; otherwise the topmost rect by z. -/
def primaryHitMoveV2 (rects : List Rect) (sel : List String) (gx gy : Int) :
    Option String :=
  let hits := hitRectsAt rects gx gy
  match hits.find? (fun r => decide (r.id ∈ sel)) with
  | some r => some r.id
  | none => hits.head?.map (·.id)

/-- Intent events emitted through `dispatchUiEvent` (spec section 6). -/
inductive UiEvent where
  | selectionChange (ids : List String)
  | rectUpdate (patches : List (String × Rect))
  deriving DecidableEq

/-- Gesture kind recorded in the ghost (`'MOVE' | 'RESIZE'`). -/
inductive GhostType where
  | MOVE
  | RESIZE
  deriving DecidableEq

/-- The four corner resize handles rendered by the component. -/
inductive ResizeDir where
  | nw
  | ne
  | sw
  | se
  deriving DecidableEq

/-- `dir.includes('e')`. -/
def ResizeDir.hasE : ResizeDir → Bool
  | .ne | .se => true
  | _ => false

/-- `dir.includes('w')`. -/
def ResizeDir.hasW : ResizeDir → Bool
  | .nw | .sw => true
  | _ => false

/-- `dir.includes('n')`. -/
def ResizeDir.hasN : ResizeDir → Bool
  | .nw | .ne => true
  | _ => false

/-- `dir.includes('s')`. -/
def ResizeDir.hasS : ResizeDir → Bool
  | .sw | .se => true
  | _ => false

/-- One entry of the ghost's per-item snapshot. -/
structure GhostItem where
  originalRect : Rect
  currentRect : Rect
  deriving DecidableEq

/-- The in-flight interaction record (spec section 3 `Ghost`); `items` is an
association list in `newSelection` insertion order, like the JS object. -/
structure Ghost where
  primaryId : String
  originalSelectedIds : List String
  gtype : GhostType
  resizeDir : Option ResizeDir
  startMouse : ℚ × ℚ
  items : List (String × GhostItem)
  wasDragged : Bool
  deriving DecidableEq

/-- The rubber-band selection rectangle, canvas pixel space. -/
structure Marquee where
  x1 : ℚ
  y1 : ℚ
  x2 : ℚ
  y2 : ℚ
  deriving DecidableEq

/-- The engine's transient view state (`this.ghost` / `this.marquee`). -/
structure EngineState where
  ghost : Option Ghost
  marquee : Option Marquee
  deriving DecidableEq

/-- What the pointer-down landed on: a resize handle of a rect (resolved by
the DOM from `composedPath`) or the grid body. -/
inductive DownTarget where
  | handle (id : String) (dir : ResizeDir)
  | body
  deriving DecidableEq

/-- A pointer-down event: target, canvas coordinates, and whether an additive
modifier (ctrl/meta/shift) was held. -/
structure DownEvent where
  target : DownTarget
  x : ℚ
  y : ℚ
  mods : Bool
  deriving DecidableEq

/-- The interaction kind decided at pointer-down. -/
inductive Interaction where
  | move (pid : String)
  | resizeOn (pid : String) (dir : ResizeDir)
  | marquee
  deriving DecidableEq

/-- Steps 1-2 of `_handleGridMouseDown`: handle click wins, else z-aware body
hit (first revision's pick), else marquee. -/
def determineInteraction (rects : List Rect) (target : DownTarget) (gx gy : Int) :
    Interaction :=
  match target with
  | .handle id dir => .resizeOn id dir
  | .body =>
    match primaryHitMoveV1 rects gx gy with
    | some pid => .move pid
    | none => .marquee

/-- The selection update computed at pointer-down (lines 179-194). -/
def newSelectionOnDown (inter : Interaction) (orig : List String) (mods : Bool) :
    List String :=
  match inter with
  | .move pid =>
    if mods then
      if pid ∈ orig then orig.filter (fun id => decide (id ≠ pid)) else orig ++ [pid]
    else if pid ∈ orig then orig else [pid]
  | .resizeOn pid _ => [pid]
  | .marquee => if mods then orig else []

/-- Build the ghost's per-item snapshot from the new selection: ids missing
from `rects` are skipped (stale-selection tolerance). -/
def buildGhostItems (rects : List Rect) (sel : List String) :
    List (String × GhostItem) :=
  sel.filterMap fun id =>
    (rects.find? (fun r => decide (r.id = id))).map fun r => (id, ⟨r, r⟩)

/-- `_handleGridMouseDown` (first revision, lines 139-221). -/
def mouseDownStep (ctx : Ctx) (s : EngineState) (ev : DownEvent) :
    EngineState × List UiEvent :=
  if ctx.isDesign = false then (s, [])
  else
    let c := getGridCoords ctx.gridConfig ev.x ev.y
    let inter := determineInteraction ctx.rects ev.target c.1 c.2
    let origSel := ctx.selectedIds
    let newSel := newSelectionOnDown inter origSel ev.mods
    match inter with
    | .marquee =>
      (⟨none, some ⟨ev.x, ev.y, ev.x, ev.y⟩⟩, [.selectionChange newSel])
    | .move pid =>
      (⟨some ⟨pid, origSel, .MOVE, none, (ev.x, ev.y),
         buildGhostItems ctx.rects newSel, false⟩, none⟩,
       [.selectionChange newSel])
    | .resizeOn pid dir =>
      (⟨some ⟨pid, origSel, .RESIZE, some dir, (ev.x, ev.y),
         buildGhostItems ctx.rects newSel, false⟩, none⟩,
       [.selectionChange newSel])

/-- First revision's MOVE frame (lines 244-253): grid delta applied to the
item's original rect, clamped per item via `clampGrid`, spread over the
original rect. -/
def moveItemV1 (cols : Int) (gdx gdy : Int) (it : GhostItem) : GhostItem :=
  let orig := it.originalRect
  let constrained :=
    clampGrid ⟨orig.x + gdx, orig.y + gdy, orig.w, orig.h⟩ cols
  { it with currentRect := orig.withGeom constrained }

/-- RESIZE geometry (lines 259-273): grow from the e/s edges, or consume from
the n/w edges capped at `w-1`/`h-1`. -/
def resizeGeom (orig : Rect) (dir : ResizeDir) (gdx gdy : Int) : GRect :=
  let wx : Int × Int :=
    if dir.hasE then (max 1 (orig.w + gdx), orig.x)
    else if dir.hasW then
      let diff := min (orig.w - 1) gdx
      (orig.w - diff, orig.x + diff)
    else (orig.w, orig.x)
  let hy : Int × Int :=
    if dir.hasS then (max 1 (orig.h + gdy), orig.y)
    else if dir.hasN then
      let diff := min (orig.h - 1) gdy
      (orig.h - diff, orig.y + diff)
    else (orig.h, orig.y)
  ⟨wx.2, hy.2, wx.1, hy.1⟩

/-- `_handleWindowMouseMove` (first revision, lines 223-279).  The handler
never dispatches, so the event component is `[]` in every branch. -/
def mouseMoveStep (ctx : Ctx) (s : EngineState) (mx my : ℚ) :
    EngineState × List UiEvent :=
  match s.marquee with
  | some m => ({ s with marquee := some { m with x2 := mx, y2 := my } }, [])
  | none =>
    match s.ghost with
    | none => (s, [])
    | some g =>
      let dx := mx - g.startMouse.1
      let dy := my - g.startMouse.2
      let dragged := if |dx| > 2 ∨ |dy| > 2 then true else g.wasDragged
      let gdx := jsRound (dx / ctx.gridConfig.stepX)
      let gdy := jsRound (dy / ctx.gridConfig.stepY)
      match g.gtype with
      | .MOVE =>
        let items := g.items.map fun p =>
          (p.1, moveItemV1 ctx.gridConfig.columns gdx gdy p.2)
        ({ s with ghost := some { g with wasDragged := dragged, items := items } }, [])
      | .RESIZE =>
        let dir := g.resizeDir.getD .se
        let items := g.items.map fun p =>
          if p.1 = g.primaryId then
            let nr := p.2.originalRect.withGeom
              (clampGrid (resizeGeom p.2.originalRect dir gdx gdy)
                ctx.gridConfig.columns)
            (p.1, { p.2 with currentRect := nr })
          else p
        ({ s with ghost := some { g with wasDragged := dragged, items := items } }, [])

/-- The marquee/rect open-interval overlap test from `_handleWindowMouseUp`
(`rLeft < left+width && rRight > left && rTop < top+height && rBottom > top`). -/
def marqueeHitTest (cfg : GridConfig) (left top width height : ℚ) (r : Rect) :
    Bool :=
  let rLeft := cfg.padding + (r.x : ℚ) * cfg.stepX
  let rTop := cfg.padding + (r.y : ℚ) * cfg.stepY
  let rRight := rLeft + (r.w : ℚ) * cfg.stepX
  let rBottom := rTop + (r.h : ℚ) * cfg.stepY
  decide (rLeft < left + width ∧ rRight > left ∧ rTop < top + height ∧ rBottom > top)

/-- The marquee selection accumulation (push each overlapping rect's id if
not already present). -/
def marqueeSelect (cfg : GridConfig) (left top width height : ℚ)
    (rects : List Rect) (base : List String) : List String :=
  rects.foldl
    (fun acc r =>
      if marqueeHitTest cfg left top width height r then
        if r.id ∈ acc then acc else acc ++ [r.id]
      else acc)
    base

/-- The no-drag click-through cycle (lines 313-334): index of the primary in
the z-sorted hits (JS `findIndex`, -1 when missing), advanced by one modulo
the hit count. -/
def cycleNextId (hits : List Rect) (pid : String) : Option String :=
  let idx : Nat :=
    match hits.findIdx? (fun r => decide (r.id = pid)) with
    | some i => i + 1
    | none => 0
  (hits[idx % hits.length]?).map (·.id)

/-- `_handleWindowMouseUp` (first revision, lines 281-347). -/
def mouseUpStep (ctx : Ctx) (s : EngineState) (mods : Bool) :
    EngineState × List UiEvent :=
  match s.marquee with
  | some m =>
    let left := min m.x1 m.x2
    let top := min m.y1 m.y2
    let width := |m.x1 - m.x2|
    let height := |m.y1 - m.y2|
    let base := if mods then ctx.selectedIds else []
    let evs :=
      if width > 2 ∨ height > 2 then
        [UiEvent.selectionChange
          (marqueeSelect ctx.gridConfig left top width height ctx.rects base)]
      else []
    (⟨none, none⟩, evs)
  | none =>
    match s.ghost with
    | none => (s, [])
    | some g =>
      let evs :=
        match g.gtype with
        | .MOVE =>
          if g.wasDragged = false then
            let c := getGridCoords ctx.gridConfig g.startMouse.1 g.startMouse.2
            let hits := hitRectsAt ctx.rects c.1 c.2
            if hits.isEmpty then
              if mods then [] else [UiEvent.selectionChange []]
            else if mods then []
            else if g.primaryId ∈ g.originalSelectedIds then
              match cycleNextId hits g.primaryId with
              | some nid => [UiEvent.selectionChange [nid]]
              | none => []
            else []
          else
            [UiEvent.rectUpdate (g.items.map fun p => (p.1, p.2.currentRect))]
        | .RESIZE =>
          if g.wasDragged then
            [UiEvent.rectUpdate (g.items.map fun p => (p.1, p.2.currentRect))]
          else []
      (⟨none, none⟩, evs)

/-- The orchestrator's application of emitted events to the selection:
`selection-change(ids)` replaces the selection wholesale (spec section 6);
`rect-update` leaves the selection unchanged. -/
def applyEvents (sel : List String) (evs : List UiEvent) : List String :=
  evs.foldl
    (fun s e =>
      match e with
      | .selectionChange ids => ids
      | .rectUpdate _ => s)
    sel

/-- Run the pointer-move frames of a gesture, collecting any emissions. -/
def runMoves (ctx : Ctx) (s : EngineState) : List (ℚ × ℚ) → EngineState × List UiEvent
  | [] => (s, [])
  | m :: rest =>
    let r1 := mouseMoveStep ctx s m.1 m.2
    let r2 := runMoves ctx r1.1 rest
    (r2.1, r1.2 ++ r2.2)

/-- A completed gesture: pointer-down, pointer-move frames, pointer-up, from
the idle engine state.  The rects snapshot stays fixed during a gesture (no
patch is applied mid-gesture); the selection seen at pointer-up reflects the
selection-change dispatched at pointer-down, per the orchestrator contract. -/
def runGesture (ctx : Ctx) (ev : DownEvent) (moves : List (ℚ × ℚ))
    (upMods : Bool) : List UiEvent :=
  let d := mouseDownStep ctx ⟨none, none⟩ ev
  let ctx2 := { ctx with selectedIds := applyEvents ctx.selectedIds d.2 }
  let mv := runMoves ctx2 d.1 moves
  let u := mouseUpStep ctx2 mv.1 upMods
  d.2 ++ mv.2 ++ u.2

/-- Group bounding box of the ghost items' original rects (second revision,
lines 774-781); `none` for an empty snapshot. -/
def groupBounds (items : List (String × GhostItem)) :
    Option (Int × Int × Int × Int) :=
  match items with
  | [] => none
  | p :: rest =>
    let o := p.2.originalRect
    some (rest.foldl
      (fun b q =>
        let r := q.2.originalRect
        (min b.1 r.x, min b.2.1 r.y, max b.2.2.1 (r.x + r.w), max b.2.2.2 (r.y + r.h)))
      (o.x, o.y, o.x + o.w, o.y + o.h))

/-- The rigid-group constrained delta (second revision, lines 783-788): the
raw grid delta clamped so the group bounding box stays inside `[0, cols]`
horizontally and above row 0. -/
def rigidDelta (cols : Int) (items : List (String × GhostItem)) (gdx gdy : Int) :
    Int × Int :=
  match groupBounds items with
  | none => (gdx, gdy)
  | some b =>
    let cdx1 := if b.1 + gdx < 0 then -b.1 else gdx
    let cdx2 := if b.2.2.1 + cdx1 > cols then cols - b.2.2.1 else cdx1
    let cdy1 := if b.2.1 + gdy < 0 then -b.2.1 else gdy
    (cdx2, cdy1)

/-- Second revision's MOVE frame (lines 769-796): every item's current rect
is its original rect shifted by the single group-constrained delta. -/
def rigidMoveStep (cols : Int) (items : List (String × GhostItem))
    (gdx gdy : Int) : List (String × GhostItem) :=
  let d := rigidDelta cols items gdx gdy
  items.map fun p =>
    let o := p.2.originalRect
    (p.1, { p.2 with currentRect := { o with x := o.x + d.1, y := o.y + d.2 } })

/-- The default grid configuration shipped in `defaults.ts`
(`columns: 36, stepX: 20, stepY: 15, padding: 50`). -/
def cfgDefault : GridConfig := ⟨36, 20, 15, 50⟩

/-- The single rect `{x:2, y:2, w:4, h:2}` of the C2 drag-move scenario. -/
def rectC2 : Rect := ⟨"R", 2, 2, 4, 2, 0, "c"⟩

/-- C2 scenario snapshot: one rect, empty selection, design mode. -/
def ctxC2 : Ctx := ⟨[rectC2], [], cfgDefault, true⟩

/-- C2 pointer-down: on the rect body at canvas `(100, 87.5)`, grid cell `(2,2)`. -/
def downC2 : DownEvent := ⟨.body, 100, 175 / 2, false⟩

/-- The two rects of the C3 rigid-group scenario: combined bounding box
spans columns 0 to 34 on a 36-column grid. -/
def itemsC3 : List (String × GhostItem) :=
  [("A", ⟨⟨"A", 0, 0, 2, 2, 0, "a"⟩, ⟨"A", 0, 0, 2, 2, 0, "a"⟩⟩),
   ("B", ⟨⟨"B", 30, 0, 4, 2, 0, "b"⟩, ⟨"B", 30, 0, 4, 2, 0, "b"⟩⟩)]

/-- The rect `{x:5, y:5, w:4, h:4}` of the C4 resize scenario. -/
def rectC4 : Rect := ⟨"S", 5, 5, 4, 4, 0, "s"⟩

/-- C4 scenario snapshot: the rect is the sole selection (handles are only
rendered on a single-selection). -/
def ctxC4 : Ctx := ⟨[rectC4], ["S"], cfgDefault, true⟩

/-- C4 pointer-down on the rect's `nw` handle. -/
def downC4 : DownEvent := ⟨.handle "S" .nw, 150, 125, false⟩

/-- The fully overlapping rects of the C6 click-through scenario. -/
def rectC6A : Rect := ⟨"A", 0, 0, 2, 2, 1, "a"⟩

/-- Topmost rect (z = 2) of the C6 scenario. -/
def rectC6B : Rect := ⟨"B", 0, 0, 2, 2, 2, "b"⟩

/-- C6 scenario snapshot: two fully overlapping rects, empty selection. -/
def ctxC6 : Ctx := ⟨[rectC6A, rectC6B], [], cfgDefault, true⟩

/-- C6 pointer-down on the overlap: canvas `(60, 57.5)`, grid cell `(0, 0)`. -/
def downC6 : DownEvent := ⟨.body, 60, 115 / 2, false⟩

/-- The rects of the C5 hit-pick scenario: A (z=1) and B (z=2) both cover
cell `(0, 0)`. -/
def rectsC5 : List Rect :=
  [⟨"A", 0, 0, 2, 2, 1, "a"⟩, ⟨"B", 0, 0, 2, 2, 2, "b"⟩]

/-- Rect inside the C7 marquee's sweep. -/
def rectC7A : Rect := ⟨"A", 0, 0, 2, 2, 0, "a"⟩

/-- Rect far outside the C7 marquee's sweep, selected before the gesture. -/
def rectC7C : Rect := ⟨"C", 20, 20, 2, 2, 0, "k"⟩

/-- C7 scenario snapshot: C is selected when the marquee gesture starts. -/
def ctxC7 : Ctx := ⟨[rectC7A, rectC7C], ["C"], cfgDefault, true⟩

/-- C7 pointer-down on empty background with the additive modifier held
(at marquee start), beginning a marquee. -/
def downC7 : DownEvent := ⟨.body, 0, 0, true⟩

/-- Is the event a selection-change? -/
def isSelectionChange : UiEvent → Bool
  | .selectionChange _ => true
  | .rectUpdate _ => false

/-- Is the event a rect-update patch? -/
def isRectUpdate : UiEvent → Bool
  | .rectUpdate _ => true
  | .selectionChange _ => false

/-- The rect dragged in the C8 counterexample gesture. -/
def rectC8 : Rect := ⟨"D", 1, 1, 2, 1, 0, "d"⟩

/-- C8 counterexample snapshot: one unselected rect, design mode. -/
def ctxC8 : Ctx := ⟨[rectC8], [], cfgDefault, true⟩

/-- C8 counterexample pointer-down on the rect body at cell `(1, 1)`. -/
def downC8 : DownEvent := ⟨.body, 80, 145 / 2, false⟩

/-- A well-formed ghost snapshot entry: its original rect is one of the
snapshot's rects with matching id, and its current rect agrees with the
original on `w`, `h`, `z` and `contentID`. -/
def GoodItem (rects : List Rect) (p : String × GhostItem) : Prop :=
  p.2.originalRect ∈ rects ∧ p.2.originalRect.id = p.1 ∧
  p.2.currentRect.w = p.2.originalRect.w ∧ p.2.currentRect.h = p.2.originalRect.h ∧
  p.2.currentRect.z = p.2.originalRect.z ∧
  p.2.currentRect.contentID = p.2.originalRect.contentID

/-- Gesture invariant for body-initiated gestures: any live ghost is a MOVE
ghost whose items are all well formed. -/
def MoveInv (rects : List Rect) (s : EngineState) : Prop :=
  ∀ g, s.ghost = some g → g.gtype = GhostType.MOVE ∧ ∀ p ∈ g.items, GoodItem rects p

/-- A legal rect of the C10 counterexample snapshot. -/
def rectC10A : Rect := ⟨"A", 0, 3, 2, 2, 0, "a"⟩

/-- The degenerate rect of the C10 counterexample: `h = 0`, but `w`
satisfies the claim's hypothesis `1 ≤ w ≤ columns`. -/
def rectC10R : Rect := ⟨"R", 0, 0, 2, 0, 0, "r"⟩

/-- C10 counterexample snapshot: both rects selected at gesture start. -/
def ctxC10 : Ctx := ⟨[rectC10A, rectC10R], ["R", "A"], cfgDefault, true⟩

/-- C10 counterexample pointer-down on rect A's body at cell `(0, 3)`. -/
def downC10 : DownEvent := ⟨.body, 60, 205 / 2, false⟩

lemma clampGrid_w_lower (r : GRect) (cols : Int) : 1 ≤ (clampGrid r cols).w := by
  simp only [clampGrid]
  omega

lemma clampGrid_w_upper (r : GRect) (cols : Int) (hc : 1 ≤ cols) :
    (clampGrid r cols).w ≤ cols := by
  simp only [clampGrid]
  omega

lemma clampGrid_x_lower (r : GRect) (cols : Int) : 0 ≤ (clampGrid r cols).x := by
  simp only [clampGrid]
  omega

lemma clampGrid_x_upper (r : GRect) (cols : Int) (hc : 1 ≤ cols) :
    (clampGrid r cols).x ≤ cols - (clampGrid r cols).w := by
  simp only [clampGrid]
  omega

lemma clampGrid_y_lower (r : GRect) (cols : Int) : 0 ≤ (clampGrid r cols).y := by
  simp only [clampGrid]
  omega

lemma clampGrid_h_lower (r : GRect) (cols : Int) : 1 ≤ (clampGrid r cols).h := by
  simp only [clampGrid]
  omega

/-- C1: for every input rectangle and every column count `cols ≥ 1`, the
rectangle returned by `clampGrid` satisfies `1 ≤ w' ≤ cols`,
`0 ≤ x' ≤ cols - w'`, `y' ≥ 0` and `h' ≥ 1`. -/
theorem claim_C1_clampGrid_bounds (r : GRect) (cols : Int) (hc : 1 ≤ cols) :
    1 ≤ (clampGrid r cols).w ∧ (clampGrid r cols).w ≤ cols ∧
    0 ≤ (clampGrid r cols).x ∧ (clampGrid r cols).x ≤ cols - (clampGrid r cols).w ∧
    0 ≤ (clampGrid r cols).y ∧ 1 ≤ (clampGrid r cols).h :=
  ⟨clampGrid_w_lower r cols, clampGrid_w_upper r cols hc,
   clampGrid_x_lower r cols, clampGrid_x_upper r cols hc,
   clampGrid_y_lower r cols, clampGrid_h_lower r cols⟩

/-- Witness for C1 at the concrete input `{x:-5, y:-2, w:50, h:0}`, 36 columns. -/
theorem claim_C1_clampGrid_bounds_witness :
    1 ≤ (clampGrid ⟨-5, -2, 50, 0⟩ 36).w ∧ (clampGrid ⟨-5, -2, 50, 0⟩ 36).w ≤ 36 ∧
    0 ≤ (clampGrid ⟨-5, -2, 50, 0⟩ 36).x ∧
    (clampGrid ⟨-5, -2, 50, 0⟩ 36).x ≤ 36 - (clampGrid ⟨-5, -2, 50, 0⟩ 36).w ∧
    0 ≤ (clampGrid ⟨-5, -2, 50, 0⟩ 36).y ∧ 1 ≤ (clampGrid ⟨-5, -2, 50, 0⟩ 36).h :=
  claim_C1_clampGrid_bounds ⟨-5, -2, 50, 0⟩ 36 (by decide)

/-- C9: `clampGrid` is idempotent for every rectangle and every `cols ≥ 1`. -/
theorem claim_C9_clampGrid_idempotent (r : GRect) (cols : Int) (hc : 1 ≤ cols) :
    clampGrid (clampGrid r cols) cols = clampGrid r cols := by
  simp only [clampGrid, GRect.mk.injEq]
  refine ⟨?_, ?_, ?_, ?_⟩ <;> omega

/-- Witness for C9 at the concrete input `{x:40, y:-3, w:0, h:7}`, 12 columns. -/
theorem claim_C9_clampGrid_idempotent_witness :
    clampGrid (clampGrid ⟨40, -3, 0, 7⟩ 12) 12 = clampGrid ⟨40, -3, 0, 7⟩ 12 :=
  claim_C9_clampGrid_idempotent ⟨40, -3, 0, 7⟩ 12 (by decide)

/-- C2: the pixel delta from gesture start is converted to a grid delta by
dividing by `stepX`/`stepY` and rounding to the nearest integer
(`|q - round q| ≤ 1/2`), applied to the item's original rect: dragging
`{x:2,y:2,w:4,h:2}` by exactly 2 grid steps right and 1 down (pixel delta
`(40, 15)` at `stepX = 20`, `stepY = 15`) commits `{x:4,y:3,w:4,h:2}`. -/
theorem claim_C2_move_rounds_to_nearest :
    (∀ q : ℚ, |q - (jsRound q : ℚ)| ≤ 1 / 2) ∧
    runGesture ctxC2 downC2 [(140, 205 / 2)] false =
      [UiEvent.selectionChange ["R"],
       UiEvent.rectUpdate [("R", ⟨"R", 4, 3, 4, 2, 0, "c"⟩)]] := by
  constructor
  · intro q
    have h1 : ((jsRound q : Int) : ℚ) ≤ q + 1 / 2 := by
      rw [jsRound]
      exact Int.floor_le _
    have h2 : q + 1 / 2 < (jsRound q : Int) + 1 := by
      rw [jsRound]
      exact Int.lt_floor_add_one _
    rw [abs_le]
    constructor
    · linarith
    · linarith
  · with_unfolding_all decide

/-- C3: in the rigid-group MOVE variant, a drag of +5 columns on a group
whose bounding box spans `[0, 34]` of a 36-column grid is clamped to a
single shared delta of +2: both items move by exactly 2 columns and the
group's rightmost edge lands at column 36. -/
theorem claim_C3_rigid_group_clamped_as_whole :
    rigidDelta 36 itemsC3 5 0 = (2, 0) ∧
    rigidMoveStep 36 itemsC3 5 0 =
      [("A", ⟨⟨"A", 0, 0, 2, 2, 0, "a"⟩, ⟨"A", 2, 0, 2, 2, 0, "a"⟩⟩),
       ("B", ⟨⟨"B", 30, 0, 4, 2, 0, "b"⟩, ⟨"B", 32, 0, 4, 2, 0, "b"⟩⟩)] ∧
    ((rigidMoveStep 36 itemsC3 5 0).map
        (fun p => p.2.currentRect.x + p.2.currentRect.w)).foldl max 0 = 36 := by
  decide

/-- C4: a `nw` resize of `{x:5,y:5,w:4,h:4}` by grid delta `(+2,+2)` (pixel
delta `(40, 30)`) commits `{x:7,y:7,w:2,h:2}`; in general the `nw`
consumption is capped so width and height never drop below 1, and the east
and south edges are held fixed. -/
theorem claim_C4_resize_nw_consumes_capped :
    runGesture ctxC4 downC4 [(190, 155)] false =
      [UiEvent.selectionChange ["S"],
       UiEvent.rectUpdate [("S", ⟨"S", 7, 7, 2, 2, 0, "s"⟩)]] ∧
    ∀ (orig : Rect) (gdx gdy : Int),
      1 ≤ (resizeGeom orig .nw gdx gdy).w ∧
      1 ≤ (resizeGeom orig .nw gdx gdy).h ∧
      (resizeGeom orig .nw gdx gdy).x + (resizeGeom orig .nw gdx gdy).w =
        orig.x + orig.w ∧
      (resizeGeom orig .nw gdx gdy).y + (resizeGeom orig .nw gdx gdy).h =
        orig.y + orig.h := by
  constructor
  · with_unfolding_all decide
  · intro orig gdx gdy
    simp only [resizeGeom, ResizeDir.hasE, ResizeDir.hasW, ResizeDir.hasN,
      ResizeDir.hasS, Bool.false_eq_true, if_false, if_true]
    refine ⟨?_, ?_, ?_, ?_⟩ <;> omega

/-- C6: with two fully overlapping rects A (z=1), B (z=2) and empty
selection, a plain click (down then up, no drag, no modifiers) selects B,
the topmost; a second plain click while B is selected cycles the selection
to A underneath. -/
theorem claim_C6_click_through_cycles :
    applyEvents [] (runGesture ctxC6 downC6 [] false) = ["B"] ∧
    applyEvents ["B"]
      (runGesture { ctxC6 with selectedIds := ["B"] } downC6 [] false) = ["A"] := by
  with_unfolding_all decide

lemma hitRectsAt_sorted (rects : List Rect) (gx gy : Int) :
    List.Sorted zGE (hitRectsAt rects gx gy) :=
  List.sorted_insertionSort zGE _

lemma head_z_max {l : List Rect} (hs : List.Sorted zGE l) {r : Rect}
    (hh : l.head? = some r) : r ∈ l ∧ ∀ r2 ∈ l, r2.z ≤ r.z := by
  cases l with
  | nil => cases hh
  | cons a t =>
    rw [List.head?_cons, Option.some.injEq] at hh
    subst hh
    refine ⟨List.mem_cons_self _ _, ?_⟩
    intro r2 hr2
    rcases List.mem_cons.mp hr2 with rfl | h
    · exact le_refl _
    · exact List.rel_of_sorted_cons hs r2 h

lemma find_z_max (p : Rect → Bool) :
    ∀ (l : List Rect), List.Sorted zGE l → ∀ r, l.find? p = some r →
      r ∈ l ∧ p r = true ∧ ∀ r2 ∈ l, p r2 = true → r2.z ≤ r.z := by
  intro l
  induction l with
  | nil =>
    intro _ r h
    cases h
  | cons a t ih =>
    intro hs r hf
    by_cases hpa : p a = true
    · rw [List.find?_cons_of_pos _ hpa, Option.some.injEq] at hf
      subst hf
      refine ⟨List.mem_cons_self _ _, hpa, ?_⟩
      intro r2 hr2 _
      rcases List.mem_cons.mp hr2 with rfl | h
      · exact le_refl _
      · exact List.rel_of_sorted_cons hs r2 h
    · rw [List.find?_cons_of_neg _ hpa] at hf
      obtain ⟨hmem, hp, hmax⟩ := ih hs.of_cons r hf
      refine ⟨List.mem_cons_of_mem _ hmem, hp, ?_⟩
      intro r2 hr2 hp2
      rcases List.mem_cons.mp hr2 with rfl | h
      · exact absurd hp2 hpa
      · exact hmax r2 h hp2

/-- C5 counterexample: in the second revision's pointer-down hit pick, with
A (z=1) already selected, a click on the A/B overlap picks A — not B, the
hit with the strictly highest z — so the primary target is not always the
highest-z hit. -/
theorem claim_C5_counterexample :
    primaryHitMoveV2 rectsC5 ["A"] 0 0 = some "A" ∧
    (⟨"B", 0, 0, 2, 2, 2, "b"⟩ : Rect) ∈ hitRectsAt rectsC5 0 0 ∧
    (⟨"A", 0, 0, 2, 2, 1, "a"⟩ : Rect).z < (⟨"B", 0, 0, 2, 2, 2, "b"⟩ : Rect).z ∧
    (some "A" : Option String) ≠ some "B" := by
  decide

/-- C5 amended: the first revision picks the highest-z hit; the second
revision prefers an already-selected hit (the highest-z one among the
selected hits) and falls back to the highest-z hit when no hit is
selected. -/
theorem claim_C5_zorder_hit_pick (rects : List Rect) (sel : List String)
    (gx gy : Int) (hne : hitRectsAt rects gx gy ≠ []) :
    (∃ r ∈ hitRectsAt rects gx gy,
        primaryHitMoveV1 rects gx gy = some r.id ∧
        ∀ r2 ∈ hitRectsAt rects gx gy, r2.z ≤ r.z) ∧
    ((∀ r2 ∈ hitRectsAt rects gx gy, r2.id ∉ sel) →
        primaryHitMoveV2 rects sel gx gy = primaryHitMoveV1 rects gx gy) ∧
    (∀ r, (hitRectsAt rects gx gy).find? (fun r2 => decide (r2.id ∈ sel)) = some r →
        primaryHitMoveV2 rects sel gx gy = some r.id ∧
        r ∈ hitRectsAt rects gx gy ∧ r.id ∈ sel ∧
        ∀ r2 ∈ hitRectsAt rects gx gy, r2.id ∈ sel → r2.z ≤ r.z) := by
  obtain ⟨a, t, hat⟩ := List.exists_cons_of_ne_nil hne
  have hhead : (hitRectsAt rects gx gy).head? = some a := by
    rw [hat, List.head?_cons]
  obtain ⟨hmem, hmax⟩ := head_z_max (hitRectsAt_sorted rects gx gy) hhead
  refine ⟨⟨a, hmem, ?_, hmax⟩, ?_, ?_⟩
  · rw [primaryHitMoveV1, hhead]
    rfl
  · intro hnone
    have hfind : (hitRectsAt rects gx gy).find? (fun r2 => decide (r2.id ∈ sel)) = none := by
      rw [List.find?_eq_none]
      intro x hx
      simp only [decide_eq_true_eq]
      exact hnone x hx
    rw [primaryHitMoveV2, primaryHitMoveV1, hfind]
  · intro r hf
    obtain ⟨hrmem, hp, hmaxsel⟩ :=
      find_z_max (fun r2 => decide (r2.id ∈ sel)) _ (hitRectsAt_sorted rects gx gy) r hf
    refine ⟨?_, hrmem, ?_, ?_⟩
    · rw [primaryHitMoveV2, hf]
    · exact of_decide_eq_true hp
    · intro r2 h2 hsel2
      exact hmaxsel r2 h2 (decide_eq_true hsel2)

/-- Witness for C5 at the concrete scenario `rectsC5` with B (z=2) selected:
the selected hit B is picked by both revisions. -/
theorem claim_C5_zorder_hit_pick_witness :
    (∃ r ∈ hitRectsAt rectsC5 0 0,
        primaryHitMoveV1 rectsC5 0 0 = some r.id ∧
        ∀ r2 ∈ hitRectsAt rectsC5 0 0, r2.z ≤ r.z) ∧
    ((∀ r2 ∈ hitRectsAt rectsC5 0 0, r2.id ∉ ["B"]) →
        primaryHitMoveV2 rectsC5 ["B"] 0 0 = primaryHitMoveV1 rectsC5 0 0) ∧
    (∀ r, (hitRectsAt rectsC5 0 0).find? (fun r2 => decide (r2.id ∈ ["B"])) = some r →
        primaryHitMoveV2 rectsC5 ["B"] 0 0 = some r.id ∧
        r ∈ hitRectsAt rectsC5 0 0 ∧ r.id ∈ ["B"] ∧
        ∀ r2 ∈ hitRectsAt rectsC5 0 0, r2.id ∈ ["B"] → r2.z ≤ r.z) :=
  claim_C5_zorder_hit_pick rectsC5 ["B"] 0 0 (by decide)

lemma mem_marqueeSelect (cfg : GridConfig) (left top width height : ℚ) :
    ∀ (l : List Rect) (base : List String) (a : String),
      a ∈ marqueeSelect cfg left top width height l base ↔
        a ∈ base ∨ ∃ r ∈ l, r.id = a ∧ marqueeHitTest cfg left top width height r = true := by
  intro l
  induction l with
  | nil =>
    intro base a
    simp [marqueeSelect]
  | cons r t ih =>
    intro base a
    have hstep : marqueeSelect cfg left top width height (r :: t) base =
        marqueeSelect cfg left top width height t
          (if marqueeHitTest cfg left top width height r then
            (if r.id ∈ base then base else base ++ [r.id]) else base) := rfl
    rw [hstep, ih]
    by_cases hh : marqueeHitTest cfg left top width height r = true
    · rw [if_pos hh]
      by_cases hb : r.id ∈ base
      · rw [if_pos hb]
        constructor
        · rintro (h | ⟨r2, h2, hrest⟩)
          · exact Or.inl h
          · exact Or.inr ⟨r2, List.mem_cons_of_mem _ h2, hrest⟩
        · rintro (h | ⟨r2, h2, hid, hhit⟩)
          · exact Or.inl h
          · rcases List.mem_cons.mp h2 with rfl | h2t
            · subst hid
              exact Or.inl hb
            · exact Or.inr ⟨r2, h2t, hid, hhit⟩
      · rw [if_neg hb]
        constructor
        · rintro (h | ⟨r2, h2, hrest⟩)
          · rcases List.mem_append.mp h with h | h
            · exact Or.inl h
            · rcases List.mem_singleton.mp h with rfl
              exact Or.inr ⟨r, List.mem_cons_self _ _, rfl, hh⟩
          · exact Or.inr ⟨r2, List.mem_cons_of_mem _ h2, hrest⟩
        · rintro (h | ⟨r2, h2, hid, hhit⟩)
          · exact Or.inl (List.mem_append.mpr (Or.inl h))
          · rcases List.mem_cons.mp h2 with rfl | h2t
            · subst hid
              exact Or.inl (List.mem_append.mpr (Or.inr (List.mem_singleton.mpr rfl)))
            · exact Or.inr ⟨r2, h2t, hid, hhit⟩
    · rw [if_neg hh]
      constructor
      · rintro (h | ⟨r2, h2, hrest⟩)
        · exact Or.inl h
        · exact Or.inr ⟨r2, List.mem_cons_of_mem _ h2, hrest⟩
      · rintro (h | ⟨r2, h2, hid, hhit⟩)
        · exact Or.inl h
        · rcases List.mem_cons.mp h2 with rfl | h2t
          · exact absurd hhit hh
          · exact Or.inr ⟨r2, h2t, hid, hhit⟩

/-- C7 counterexample: the additive modifier is held when the marquee
starts but released before pointer-up; the marquee sweeps only A.  The
claim says the result is unioned with the existing selection `["C"]`, but
the code reads the modifier from the pointer-up event, so the committed
selection is `["A"]` and C is dropped. -/
theorem claim_C7_counterexample :
    applyEvents ["C"] (runGesture ctxC7 downC7 [(89, 79)] false) = ["A"] ∧
    "C" ∉ applyEvents ["C"] (runGesture ctxC7 downC7 [(89, 79)] false) := by
  with_unfolding_all decide

/-- C7 amended: on pointer-up while a marquee is active, a selection-change
is emitted iff the marquee's width or height exceeds 2 pixels; no
`rect-update` is ever emitted; when emitted, the selection is exactly the
rects overlapping the marquee under the open-interval test, unioned with
the selection current at pointer-up when the additive modifier is held at
pointer-up (not at marquee start). -/
theorem claim_C7_marquee_commit (ctx : Ctx) (g? : Option Ghost) (m : Marquee)
    (mods : Bool) :
    ((mouseUpStep ctx ⟨g?, some m⟩ mods).2 ≠ [] ↔
      (|m.x1 - m.x2| > 2 ∨ |m.y1 - m.y2| > 2)) ∧
    (∀ e ∈ (mouseUpStep ctx ⟨g?, some m⟩ mods).2, ∀ ps, e ≠ UiEvent.rectUpdate ps) ∧
    (∀ ids, (mouseUpStep ctx ⟨g?, some m⟩ mods).2 = [UiEvent.selectionChange ids] →
      ∀ a, a ∈ ids ↔
        ((mods = true ∧ a ∈ ctx.selectedIds) ∨
         ∃ r ∈ ctx.rects, r.id = a ∧
           marqueeHitTest ctx.gridConfig (min m.x1 m.x2) (min m.y1 m.y2)
             |m.x1 - m.x2| |m.y1 - m.y2| r = true)) := by
  have hstep : (mouseUpStep ctx ⟨g?, some m⟩ mods).2 =
      if |m.x1 - m.x2| > 2 ∨ |m.y1 - m.y2| > 2 then
        [UiEvent.selectionChange
          (marqueeSelect ctx.gridConfig (min m.x1 m.x2) (min m.y1 m.y2)
            |m.x1 - m.x2| |m.y1 - m.y2| ctx.rects
            (if mods then ctx.selectedIds else []))]
      else [] := rfl
  refine ⟨?_, ?_, ?_⟩
  · rw [hstep]
    by_cases hc : |m.x1 - m.x2| > 2 ∨ |m.y1 - m.y2| > 2
    · simp [hc]
    · simp [hc]
  · intro e he ps
    rw [hstep] at he
    by_cases hc : |m.x1 - m.x2| > 2 ∨ |m.y1 - m.y2| > 2
    · rw [if_pos hc] at he
      rcases List.mem_singleton.mp he with rfl
      simp
    · rw [if_neg hc] at he
      cases he
  · intro ids hids a
    rw [hstep] at hids
    by_cases hc : |m.x1 - m.x2| > 2 ∨ |m.y1 - m.y2| > 2
    · rw [if_pos hc] at hids
      have hsel : marqueeSelect ctx.gridConfig (min m.x1 m.x2) (min m.y1 m.y2)
          |m.x1 - m.x2| |m.y1 - m.y2| ctx.rects
          (if mods then ctx.selectedIds else []) = ids := by
        injection List.head_eq_of_cons_eq hids with h
      rw [← hsel, mem_marqueeSelect]
      cases mods with
      | true => simp
      | false => simp
    · rw [if_neg hc] at hids
      cases hids

lemma mouseMoveStep_no_events (ctx : Ctx) (s : EngineState) (mx my : ℚ) :
    (mouseMoveStep ctx s mx my).2 = [] := by
  rcases s with ⟨g?, m?⟩
  rcases m? with _ | m
  · rcases g? with _ | g
    · rfl
    · rcases g with ⟨pid, osel, gt, rd, sm, items, wd⟩
      cases gt <;> rfl
  · rfl

lemma runMoves_no_events (ctx : Ctx) :
    ∀ (moves : List (ℚ × ℚ)) (s : EngineState), (runMoves ctx s moves).2 = [] := by
  intro moves
  induction moves with
  | nil =>
    intro s
    rfl
  | cons m rest ih =>
    intro s
    show ((runMoves ctx (mouseMoveStep ctx s m.1 m.2).1 rest).1,
      (mouseMoveStep ctx s m.1 m.2).2 ++
        (runMoves ctx (mouseMoveStep ctx s m.1 m.2).1 rest).2).2 = []
    rw [mouseMoveStep_no_events, ih, List.nil_append]

lemma mouseDownStep_one_event (ctx : Ctx) (s : EngineState) (ev : DownEvent)
    (hd : ctx.isDesign = true) :
    ∃ ids, (mouseDownStep ctx s ev).2 = [UiEvent.selectionChange ids] := by
  rw [mouseDownStep, hd]
  simp only [Bool.true_eq_false, if_false]
  cases hinter : determineInteraction ctx.rects ev.target
      (getGridCoords ctx.gridConfig ev.x ev.y).1
      (getGridCoords ctx.gridConfig ev.x ev.y).2 with
  | move pid => exact ⟨_, rfl⟩
  | resizeOn pid dir => exact ⟨_, rfl⟩
  | marquee => exact ⟨_, rfl⟩

lemma mouseUpStep_shape (ctx : Ctx) (s : EngineState) (mods : Bool) :
    (mouseUpStep ctx s mods).2 = [] ∨
    (∃ ids, (mouseUpStep ctx s mods).2 = [UiEvent.selectionChange ids]) ∨
    (∃ ps, (mouseUpStep ctx s mods).2 = [UiEvent.rectUpdate ps]) := by
  rcases s with ⟨g?, m?⟩
  rcases m? with _ | m
  · rcases g? with _ | g
    · exact Or.inl rfl
    · rcases g with ⟨pid, osel, gt, rd, sm, items, wd⟩
      cases gt
      all_goals dsimp only [mouseUpStep]
      all_goals repeat' split
      all_goals
        first
          | exact Or.inl rfl
          | exact Or.inr (Or.inl ⟨_, rfl⟩)
          | exact Or.inr (Or.inr ⟨_, rfl⟩)
  · dsimp only [mouseUpStep]
    split
    · exact Or.inr (Or.inl ⟨_, rfl⟩)
    · exact Or.inl rfl

/-- C8 amended: every pointer-move frame emits nothing, and a completed
design-mode gesture emits exactly one selection-change at pointer-down
followed by at most one further event at pointer-up — either one Patch or
one selection-change, never both. -/
theorem claim_C8_gesture_emissions (ctx : Ctx) (ev : DownEvent)
    (moves : List (ℚ × ℚ)) (upMods : Bool) (hd : ctx.isDesign = true) :
    (∀ (c : Ctx) (s : EngineState) (mx my : ℚ), (mouseMoveStep c s mx my).2 = []) ∧
    ∃ ids rest, runGesture ctx ev moves upMods = UiEvent.selectionChange ids :: rest ∧
      rest.length ≤ 1 ∧
      (rest = [] ∨ (∃ ids2, rest = [UiEvent.selectionChange ids2]) ∨
       (∃ ps, rest = [UiEvent.rectUpdate ps])) := by
  refine ⟨mouseMoveStep_no_events, ?_⟩
  obtain ⟨ids, hids⟩ := mouseDownStep_one_event ctx ⟨none, none⟩ ev hd
  simp only [runGesture, hids, applyEvents, List.foldl_cons, List.foldl_nil]
  rw [runMoves_no_events]
  obtain h | ⟨ids2, h⟩ | ⟨ps, h⟩ :=
    mouseUpStep_shape { ctx with selectedIds := ids }
      (runMoves { ctx with selectedIds := ids }
        (mouseDownStep ctx ⟨none, none⟩ ev).1 moves).1 upMods
  · rw [h]
    exact ⟨ids, [], by simp, by simp, Or.inl rfl⟩
  · rw [h]
    exact ⟨ids, [UiEvent.selectionChange ids2], by simp, by simp,
      Or.inr (Or.inl ⟨ids2, rfl⟩)⟩
  · rw [h]
    exact ⟨ids, [UiEvent.rectUpdate ps], by simp, by simp,
      Or.inr (Or.inr ⟨ps, rfl⟩)⟩

/-- C8 counterexample: one completed drag-move gesture (down on an
unselected rect, drag two columns, release) emits TWO events — a
selection-change at pointer-down and a Patch at pointer-up — refuting
"exactly one Patch or one selection-change, mutually exclusive per
gesture". -/
theorem claim_C8_counterexample :
    (runGesture ctxC8 downC8 [(120, 145 / 2)] false).length = 2 ∧
    ((runGesture ctxC8 downC8 [(120, 145 / 2)] false).filter
        isSelectionChange).length = 1 ∧
    ((runGesture ctxC8 downC8 [(120, 145 / 2)] false).filter
        isRectUpdate).length = 1 := by
  with_unfolding_all decide

/-- Witness for C8 amended: the empty-snapshot click gesture. -/
theorem claim_C8_gesture_emissions_witness :
    (∀ (c : Ctx) (s : EngineState) (mx my : ℚ), (mouseMoveStep c s mx my).2 = []) ∧
    ∃ ids rest,
      runGesture ⟨[], [], cfgDefault, true⟩ ⟨.body, 0, 0, false⟩ [] false =
        UiEvent.selectionChange ids :: rest ∧
      rest.length ≤ 1 ∧
      (rest = [] ∨ (∃ ids2, rest = [UiEvent.selectionChange ids2]) ∨
       (∃ ps, rest = [UiEvent.rectUpdate ps])) :=
  claim_C8_gesture_emissions ⟨[], [], cfgDefault, true⟩ ⟨.body, 0, 0, false⟩ [] false rfl

lemma buildGhostItems_good (rects : List Rect) (sel : List String) :
    ∀ p ∈ buildGhostItems rects sel,
      p.2.originalRect ∈ rects ∧ p.2.originalRect.id = p.1 ∧
      p.2.currentRect = p.2.originalRect := by
  intro p hp
  rw [buildGhostItems] at hp
  obtain ⟨id, hid, heq⟩ := List.mem_filterMap.mp hp
  obtain ⟨r, hfind, hr⟩ := Option.map_eq_some'.mp heq
  subst hr
  have hmem : r ∈ rects := List.mem_of_find?_eq_some hfind
  have hrid := List.find?_some hfind
  simp only [decide_eq_true_eq] at hrid
  exact ⟨hmem, hrid, rfl⟩

lemma moveItemV1_fields (cols gdx gdy : Int) (it : GhostItem)
    (h1 : 1 ≤ it.originalRect.w) (h2 : it.originalRect.w ≤ cols)
    (h3 : 1 ≤ it.originalRect.h) :
    (moveItemV1 cols gdx gdy it).originalRect = it.originalRect ∧
    (moveItemV1 cols gdx gdy it).currentRect.w = it.originalRect.w ∧
    (moveItemV1 cols gdx gdy it).currentRect.h = it.originalRect.h ∧
    (moveItemV1 cols gdx gdy it).currentRect.z = it.originalRect.z ∧
    (moveItemV1 cols gdx gdy it).currentRect.contentID = it.originalRect.contentID := by
  refine ⟨rfl, ?_, ?_, rfl, rfl⟩ <;>
    simp only [moveItemV1, clampGrid, Rect.withGeom] <;> omega

lemma mouseMoveStep_inv (ctx : Ctx) (s : EngineState) (mx my : ℚ)
    (hleg : ∀ r ∈ ctx.rects, 1 ≤ r.w ∧ r.w ≤ ctx.gridConfig.columns ∧ 1 ≤ r.h)
    (hinv : MoveInv ctx.rects s) :
    MoveInv ctx.rects (mouseMoveStep ctx s mx my).1 := by
  rcases s with ⟨g?, m?⟩
  rcases m? with _ | m
  · rcases g? with _ | g
    · exact hinv
    · obtain ⟨hgt, hitems⟩ := hinv g rfl
      rcases g with ⟨pid, osel, gt, rd, sm, items, wd⟩
      cases gt
      · intro g2 hg2
        dsimp only [mouseMoveStep] at hg2
        rw [Option.some.injEq] at hg2
        subst hg2
        refine ⟨rfl, ?_⟩
        intro p hp
        obtain ⟨q, hq, hpq⟩ := List.mem_map.mp hp
        subst hpq
        obtain ⟨hqmem, hqid, hqw, hqh, hqz, hqc⟩ := hitems q hq
        obtain ⟨hw1, hw2, hh1⟩ := hleg q.2.originalRect hqmem
        obtain ⟨ho, hw, hh, hz, hc⟩ :=
          moveItemV1_fields ctx.gridConfig.columns
            (jsRound ((mx - sm.1) / ctx.gridConfig.stepX))
            (jsRound ((my - sm.2) / ctx.gridConfig.stepY)) q.2 hw1 hw2 hh1
        exact ⟨ho ▸ hqmem, by rw [ho, hqid], by rw [hw, ho], by rw [hh, ho],
          by rw [hz, ho], by rw [hc, ho]⟩
      · exact absurd hgt (by simp)
  · intro g2 hg2
    exact hinv g2 hg2

lemma runMoves_inv (ctx : Ctx)
    (hleg : ∀ r ∈ ctx.rects, 1 ≤ r.w ∧ r.w ≤ ctx.gridConfig.columns ∧ 1 ≤ r.h) :
    ∀ (moves : List (ℚ × ℚ)) (s : EngineState), MoveInv ctx.rects s →
      MoveInv ctx.rects (runMoves ctx s moves).1 := by
  intro moves
  induction moves with
  | nil =>
    intro s hinv
    exact hinv
  | cons m rest ih =>
    intro s hinv
    exact ih _ (mouseMoveStep_inv ctx s m.1 m.2 hleg hinv)

lemma mouseUpStep_rectUpdate_items (ctx : Ctx) (s : EngineState) (mods : Bool)
    (ps : List (String × Rect))
    (h : UiEvent.rectUpdate ps ∈ (mouseUpStep ctx s mods).2) :
    ∃ g, s.ghost = some g ∧ ps = g.items.map (fun p => (p.1, p.2.currentRect)) := by
  rcases s with ⟨g?, m?⟩
  rcases m? with _ | m
  · rcases g? with _ | g
    · cases h
    · refine ⟨g, rfl, ?_⟩
      rcases g with ⟨pid, osel, gt, rd, sm, items, wd⟩
      cases gt
      all_goals dsimp only [mouseUpStep] at h
      all_goals repeat' split at h
      all_goals simp_all
  · dsimp only [mouseUpStep] at h
    split at h
    · simp_all
    · cases h

lemma mouseDownStep_events_shape (ctx : Ctx) (s : EngineState) (ev : DownEvent) :
    (mouseDownStep ctx s ev).2 = [] ∨
    ∃ ids, (mouseDownStep ctx s ev).2 = [UiEvent.selectionChange ids] := by
  by_cases hd : ctx.isDesign = true
  · exact Or.inr (mouseDownStep_one_event ctx s ev hd)
  · simp only [Bool.not_eq_true] at hd
    rw [mouseDownStep, if_pos hd]
    exact Or.inl rfl

lemma mouseDownStep_no_rectUpdate (ctx : Ctx) (s : EngineState) (ev : DownEvent)
    (ps : List (String × Rect)) :
    UiEvent.rectUpdate ps ∉ (mouseDownStep ctx s ev).2 := by
  intro h
  rcases mouseDownStep_events_shape ctx s ev with hsh | ⟨ids, hsh⟩ <;> rw [hsh] at h
  · cases h
  · simp at h

lemma determineInteraction_body (rects : List Rect) (gx gy : Int) :
    determineInteraction rects DownTarget.body gx gy =
      (match primaryHitMoveV1 rects gx gy with
       | some pid => Interaction.move pid
       | none => Interaction.marquee) := rfl

lemma mouseDownStep_inv (ctx : Ctx) (ev : DownEvent)
    (hb : ev.target = DownTarget.body) :
    MoveInv ctx.rects (mouseDownStep ctx ⟨none, none⟩ ev).1 := by
  rcases ev with ⟨tgt, ex, ey, em⟩
  cases hb
  rw [mouseDownStep]
  by_cases hd : ctx.isDesign = false
  · rw [if_pos hd]
    intro g hg
    cases hg
  · rw [if_neg hd]
    dsimp only
    cases hinter : determineInteraction ctx.rects DownTarget.body
        (getGridCoords ctx.gridConfig ex ey).1
        (getGridCoords ctx.gridConfig ex ey).2 with
    | marquee =>
      intro g hg
      cases hg
    | resizeOn pid dir =>
      rw [determineInteraction_body] at hinter
      revert hinter
      cases primaryHitMoveV1 ctx.rects
          (getGridCoords ctx.gridConfig ex ey).1
          (getGridCoords ctx.gridConfig ex ey).2 <;> simp
    | move pid =>
      intro g hg
      rw [Option.some.injEq] at hg
      subst hg
      refine ⟨rfl, ?_⟩
      intro p hp
      obtain ⟨hmem, hid, hcur⟩ := buildGhostItems_good ctx.rects _ p hp
      exact ⟨hmem, hid, by rw [hcur], by rw [hcur], by rw [hcur], by rw [hcur]⟩

/-- C10 amended: for every body-initiated gesture whose snapshot rects all
satisfy `1 ≤ w ≤ columns` AND `h ≥ 1`, every patch committed at pointer-up
changes only `x` and `y` — the committed `w`, `h`, `z`, `contentID` equal
those of the item's original rect; in the rigid-group variant this holds
for every item with no hypothesis at all. -/
theorem claim_C10_move_preserves_fields (ctx : Ctx) (ev : DownEvent)
    (moves : List (ℚ × ℚ)) (upMods : Bool)
    (hb : ev.target = DownTarget.body)
    (hleg : ∀ r ∈ ctx.rects, 1 ≤ r.w ∧ r.w ≤ ctx.gridConfig.columns ∧ 1 ≤ r.h) :
    (∀ ps, UiEvent.rectUpdate ps ∈ runGesture ctx ev moves upMods →
      ∀ p ∈ ps, ∃ orig ∈ ctx.rects, orig.id = p.1 ∧
        p.2.w = orig.w ∧ p.2.h = orig.h ∧ p.2.z = orig.z ∧
        p.2.contentID = orig.contentID) ∧
    (∀ (cols gdx gdy : Int) (items : List (String × GhostItem)),
      ∀ p ∈ rigidMoveStep cols items gdx gdy,
        p.2.currentRect.w = p.2.originalRect.w ∧
        p.2.currentRect.h = p.2.originalRect.h ∧
        p.2.currentRect.z = p.2.originalRect.z ∧
        p.2.currentRect.contentID = p.2.originalRect.contentID) := by
  constructor
  · intro ps hps
    simp only [runGesture] at hps
    rcases List.mem_append.mp hps with hps1 | hpsu
    · rcases List.mem_append.mp hps1 with hpsd | hpsm
      · exact absurd hpsd (mouseDownStep_no_rectUpdate ctx ⟨none, none⟩ ev ps)
      · rw [runMoves_no_events] at hpsm
        cases hpsm
    · obtain ⟨g, hg, hpseq⟩ := mouseUpStep_rectUpdate_items _ _ _ ps hpsu
      have hinv1 : MoveInv ctx.rects (mouseDownStep ctx ⟨none, none⟩ ev).1 :=
        mouseDownStep_inv ctx ev hb
      have hinv2 : MoveInv ctx.rects
          (runMoves
            { ctx with selectedIds :=
                applyEvents ctx.selectedIds (mouseDownStep ctx ⟨none, none⟩ ev).2 }
            (mouseDownStep ctx ⟨none, none⟩ ev).1 moves).1 :=
        runMoves_inv
          { ctx with selectedIds :=
              applyEvents ctx.selectedIds (mouseDownStep ctx ⟨none, none⟩ ev).2 }
          hleg moves _ hinv1
      obtain ⟨hgt, hitems⟩ := hinv2 g hg
      intro p hp
      rw [hpseq] at hp
      obtain ⟨q, hq, hpq⟩ := List.mem_map.mp hp
      subst hpq
      obtain ⟨hqmem, hqid, hw, hh, hz, hc⟩ := hitems q hq
      exact ⟨q.2.originalRect, hqmem, hqid, hw, hh, hz, hc⟩
  · intro cols gdx gdy items p hp
    simp only [rigidMoveStep] at hp
    obtain ⟨q, hq, hpq⟩ := List.mem_map.mp hp
    subst hpq
    exact ⟨rfl, rfl, rfl, rfl⟩

/-- C10 counterexample: a MOVE drag whose selection includes the degenerate
rect R (`w = 2` within `1 ≤ w ≤ columns`, but `h = 0`) commits a patch with
R's `h` changed to 1 by the per-item `clampGrid`, so the claim's hypothesis
on `w` alone does not guarantee that only `x` and `y` change. -/
theorem claim_C10_counterexample :
    runGesture ctxC10 downC10 [(100, 205 / 2)] false =
      [UiEvent.selectionChange ["R", "A"],
       UiEvent.rectUpdate
         [("R", ⟨"R", 2, 0, 2, 1, 0, "r"⟩), ("A", ⟨"A", 2, 3, 2, 2, 0, "a"⟩)]] ∧
    (1 ≤ rectC10R.w ∧ rectC10R.w ≤ cfgDefault.columns) ∧
    rectC10R.h = 0 ∧ (⟨"R", 2, 0, 2, 1, 0, "r"⟩ : Rect).h ≠ rectC10R.h := by
  with_unfolding_all decide

/-- Witness for C10 amended: a single legal rect dragged two columns. -/
theorem claim_C10_move_preserves_fields_witness :
    (∀ ps, UiEvent.rectUpdate ps ∈
        runGesture ⟨[⟨"W", 1, 1, 2, 2, 0, "w"⟩], [], cfgDefault, true⟩
          ⟨.body, 80, 80, false⟩ [(120, 80)] false →
      ∀ p ∈ ps, ∃ orig ∈ [(⟨"W", 1, 1, 2, 2, 0, "w"⟩ : Rect)], orig.id = p.1 ∧
        p.2.w = orig.w ∧ p.2.h = orig.h ∧ p.2.z = orig.z ∧
        p.2.contentID = orig.contentID) ∧
    (∀ (cols gdx gdy : Int) (items : List (String × GhostItem)),
      ∀ p ∈ rigidMoveStep cols items gdx gdy,
        p.2.currentRect.w = p.2.originalRect.w ∧
        p.2.currentRect.h = p.2.originalRect.h ∧
        p.2.currentRect.z = p.2.originalRect.z ∧
        p.2.currentRect.contentID = p.2.originalRect.contentID) :=
  claim_C10_move_preserves_fields ⟨[⟨"W", 1, 1, 2, 2, 0, "w"⟩], [], cfgDefault, true⟩
    ⟨.body, 80, 80, false⟩ [(120, 80)] false rfl (by decide)
